import Mathlib

/-!
Shallow embedding of the resilient multi-key Gemini dispatch layer of
`src/backend/src/core/gemini_client.py` (class `GeminiClient`), together with
proofs settling the frozen claims about it.

Conventions of the embedding:
* The class-level shared state (lines 31-36 of the source) becomes the
  structure `GState`; python dicts become association lists with python's
  `dict.get`/assignment semantics (`lookupD` / `setA`).
* The remote transport (`client.models.generate_content`, line 158) is a
  parameter `transport : String → RemoteOutcome` mapping the active key name
  to the outcome of the remote call; an opaque successful payload is a `Nat`.
* `random.uniform(0, 1)` jitter (line 190) is a parameter `jitter : Nat → ℚ`
  giving the jitter drawn on a given attempt number; `time.sleep` itself is
  recorded in the trace (`Trace.backoffs`), not executed.
* Wall-clock fields of the python results (`processing_time_ms`, `timestamp`)
  are outside the embedding; all other result fields are modelled.
* Exceptions become `Except` values; an uncaught python `raise` is an
  `Except.error`.
-/

namespace InfronAI

/-- Decidable equality for `Except` results (used to settle concrete runs
of the dispatcher by computation). -/
instance {ε α : Type} [DecidableEq ε] [DecidableEq α] : DecidableEq (Except ε α) := fun a b =>
  match a, b with
  | Except.error e1, Except.error e2 =>
      if h : e1 = e2 then isTrue (congrArg Except.error h)
      else isFalse (fun hh => h (Except.error.inj hh))
  | Except.error _, Except.ok _ => isFalse (fun hh => Except.noConfusion hh)
  | Except.ok _, Except.error _ => isFalse (fun hh => Except.noConfusion hh)
  | Except.ok x, Except.ok y =>
      if h : x = y then isTrue (congrArg Except.ok h)
      else isFalse (fun hh => h (Except.ok.inj hh))

/-- Outcome of one remote `generate_content` call: a successful response
(opaque payload) or a raised exception carrying its message string. -/
inductive RemoteOutcome where
  | success (payload : Nat)
  | error (msg : String)
deriving DecidableEq, Repr

/-- Does the character list `hay` start with `needle`? (helper for substring
containment, mirroring python's `in` operator on strings). -/
def strStarts : List Char → List Char → Bool
  | _, [] => true
  | [], _ :: _ => false
  | c :: h, d :: n => c == d && strStarts h n

/-- Helper: does `needle` occur as a contiguous run inside `hay`? -/
def containsAux : List Char → List Char → Bool
  | [], n => n.isEmpty
  | c :: rest, n => strStarts (c :: rest) n || containsAux rest n

/-- Python's `needle in hay` on strings. -/
def strContains (hay needle : String) : Bool :=
  containsAux hay.data needle.data

/-- Python `d.get(k, dflt)` on an association list. -/
def lookupD {α : Type} (l : List (String × α)) (k : String) (d : α) : α :=
  match l with
  | [] => d
  | (k1, v) :: rest => if k1 = k then v else lookupD rest k d

/-- Python `d[k] = v` on an association list (overwrite if present, else append). -/
def setA {α : Type} (l : List (String × α)) (k : String) (v : α) : List (String × α) :=
  match l with
  | [] => [(k, v)]
  | (k1, v1) :: rest => if k1 = k then (k1, v) :: rest else (k1, v1) :: setA rest k v

/-- The class-level shared state of `GeminiClient` (source lines 31-36):
`_api_keys_loaded` (name/secret pairs), `_shared_clients` (name ↦ whether the
`genai.Client` was initialized, i.e. is not `None`), `_shared_key_index`,
`_shared_key_failures`, and the global breaker `_all_keys_exhausted`. -/
structure GState where
  apiKeys : List (String × String)
  clients : List (String × Bool)
  keyIndex : Nat
  keyFailures : List (String × Nat)
  allKeysExhausted : Bool
deriving DecidableEq, Repr

/-- `_get_current_key_name` (lines 92-96): the name at `_shared_key_index`,
or `"UNKNOWN"` when the index is out of range. -/
def getCurrentKeyName (s : GState) : String :=
  if s.keyIndex < s.apiKeys.length then (s.apiKeys.getD s.keyIndex ("UNKNOWN", "")).1
  else "UNKNOWN"

/-- `_get_key_name_at` (lines 121-125). -/
def getKeyNameAt (s : GState) (index : Nat) : String :=
  if index < s.apiKeys.length then (s.apiKeys.getD index ("UNKNOWN", "")).1
  else "UNKNOWN"

/-- `self.clients.get(key_name) is not None`: true iff the named client was
stored and initialized (a missing entry is `None`, hence `false`). -/
def clientUp (clients : List (String × Bool)) (k : String) : Bool :=
  lookupD clients k false

/-- The inner loop of `_rotate_to_next_key` (lines 109-115): up to `n`
times, advance the shared index cyclically and stop as soon as the slot
there has an initialized client and differs from the original key. -/
def rotAux (originalKey : String) : Nat → GState → Bool × GState
  | 0, s => (false, s)
  | n + 1, s =>
      let s1 : GState := { s with keyIndex := (s.keyIndex + 1) % s.apiKeys.length }
      let keyName := getCurrentKeyName s1
      if clientUp s1.clients keyName && keyName != originalKey then (true, s1)
      else rotAux originalKey n s1

/-- `_rotate_to_next_key` (lines 98-119): returns whether a rotation happened
and the updated shared state.  With a single key no rotation is possible and
the state is untouched; otherwise the index is advanced up to `len - 1`
times looking for a different initialized key. -/
def rotateToNextKey (s : GState) : Bool × GState :=
  let originalKey := getKeyNameAt s s.keyIndex
  if s.apiKeys.length = 1 then (false, s)
  else rotAux originalKey (s.apiKeys.length - 1) s

/-- Errors that `call_with_retry` can raise. -/
inductive DispatchError where
  /-- "All API keys quota exhausted (global state)": the breaker was already
  tripped when the call started (line 137) or at the top of an attempt
  (line 145). -/
  | exhaustedGlobal
  /-- "All API keys quota exhausted": rotation failed after a quota error,
  the breaker is tripped now (lines 185-187). -/
  | allKeysExhausted
  /-- A re-raised remote exception: a non-quota error raised immediately
  (line 197), or the stored `last_error` re-raised after the retry loop
  (line 201). -/
  | remoteError (msg : String)
  /-- "All retries failed": the loop ended with no error recorded (line 201). -/
  | allRetriesFailed
deriving DecidableEq, Repr

/-- Log of the observable actions of one `call_with_retry` invocation. -/
structure Trace where
  /-- Key names on which `generate_content` was actually invoked, in order. -/
  attempts : List String
  /-- The `wait_time` values slept at line 192, in order. -/
  backoffs : List ℚ
  /-- The boolean results of the `_rotate_to_next_key` calls made, in order. -/
  rotateResults : List Bool
deriving DecidableEq, Repr

/-- The empty trace. -/
def emptyTrace : Trace := ⟨[], [], []⟩

/-- Error classification at line 180: the message contains "429" or
"RESOURCE_EXHAUSTED". -/
def isQuotaError (msg : String) : Bool :=
  strContains msg "429" || strContains msg "RESOURCE_EXHAUSTED"

/-- The `for attempt in range(max_retries)` loop of `call_with_retry`
(lines 141-197), with `fuel` the remaining iterations, `attempt` the current
python loop counter, `lastError` the stored `last_error`, and `tr` the trace
accumulated so far.  Returns the python result (payload or raised error),
the final shared state, and the trace. -/
def callLoop (transport : String → RemoteOutcome) (jitter : Nat → ℚ) :
    Nat → Nat → GState → Option String → Trace →
    (Except DispatchError Nat) × GState × Trace
  | 0, _, s, lastError, tr =>
      (match lastError with
       | some m => Except.error (DispatchError.remoteError m)
       | none => Except.error DispatchError.allRetriesFailed, s, tr)
  | fuel + 1, attempt, s, lastError, tr =>
      if s.allKeysExhausted then (Except.error DispatchError.exhaustedGlobal, s, tr)
      else
        let keyName := getCurrentKeyName s
        if clientUp s.clients keyName = false then
          -- lines 149-152: no valid client, rotate (result ignored) and continue
          let r := rotateToNextKey s
          callLoop transport jitter fuel (attempt + 1) r.2 lastError
            { tr with rotateResults := tr.rotateResults ++ [r.1] }
        else
          match transport keyName with
          | RemoteOutcome.success p =>
              -- lines 169-172: success resets the failure count and returns
              (Except.ok p, { s with keyFailures := setA s.keyFailures keyName 0 },
               { tr with attempts := tr.attempts ++ [keyName] })
          | RemoteOutcome.error msg =>
              -- lines 174-177: record the failure
              let s1 : GState :=
                { s with
                  keyFailures := setA s.keyFailures keyName (lookupD s.keyFailures keyName 0 + 1) }
              let tr1 : Trace := { tr with attempts := tr.attempts ++ [keyName] }
              if isQuotaError msg then
                -- lines 180-192: quota error, try to rotate
                let r := rotateToNextKey s1
                let tr2 : Trace := { tr1 with rotateResults := tr1.rotateResults ++ [r.1] }
                if r.1 then
                  callLoop transport jitter fuel (attempt + 1) r.2 (some msg)
                    { tr2 with backoffs := tr2.backoffs ++ [2 ^ attempt + jitter attempt] }
                else
                  (Except.error DispatchError.allKeysExhausted,
                   { r.2 with allKeysExhausted := true }, tr2)
              else
                -- lines 194-197: non-quota error, re-raise immediately
                (Except.error (DispatchError.remoteError msg), s1, tr1)

/-- `call_with_retry` (lines 132-201): fast-fail if the breaker is already
tripped, else run the retry loop (`max_retries` defaults to 3 at call sites). -/
def call_with_retry (transport : String → RemoteOutcome) (jitter : Nat → ℚ)
    (s : GState) (maxRetries : Nat) : (Except DispatchError Nat) × GState × Trace :=
  if s.allKeysExhausted then (Except.error DispatchError.exhaustedGlobal, s, emptyTrace)
  else callLoop transport jitter maxRetries 0 s none emptyTrace

/-- A pool of two keys, both clients initialized, index at `PRIMARY`,
no failures recorded, breaker untripped. -/
def twoKeyState : GState :=
  { apiKeys := [("PRIMARY", "keyA"), ("BACKUP_1", "keyB")],
    clients := [("PRIMARY", true), ("BACKUP_1", true)],
    keyIndex := 0,
    keyFailures := [("PRIMARY", 0), ("BACKUP_1", 0)],
    allKeysExhausted := false }

/-- A transport on which every remote call raises a 429 quota error. -/
def quotaTransport : String → RemoteOutcome := fun _ => RemoteOutcome.error "429"

/-- Jitter source that always draws 0. -/
def zeroJitter : Nat → ℚ := fun _ => 0

/-- Jitter source that always draws 1/2. -/
def halfJitter : Nat → ℚ := fun _ => 1/2

/-- The environment variables read by `_load_api_keys` (lines 59-79):
`GEMINI_API_KEY` and `GEMINI_API_KEY_1` .. `GEMINI_API_KEY_3`. -/
structure PyEnv where
  geminiApiKey : Option String
  geminiApiKey1 : Option String
  geminiApiKey2 : Option String
  geminiApiKey3 : Option String
deriving DecidableEq, Repr

/-- `_load_api_keys` (lines 59-79): collect the primary key and backup keys
1-3 that are present.  When no key is found the source only logs an error
(line 77) and returns the empty list; nothing is raised. -/
def load_api_keys (env : PyEnv) : List (String × String) :=
  (match env.geminiApiKey with
   | some k => [("PRIMARY", k)]
   | none => []) ++
  (match env.geminiApiKey1 with
   | some k => [("BACKUP_1", k)]
   | none => []) ++
  (match env.geminiApiKey2 with
   | some k => [("BACKUP_2", k)]
   | none => []) ++
  (match env.geminiApiKey3 with
   | some k => [("BACKUP_3", k)]
   | none => [])

/-- `_initialize_all_clients` (lines 81-90): for each loaded key build a
`genai.Client`; a constructor exception stores `None` instead.  `initOk`
models, per secret, whether construction succeeds. -/
def initialize_all_clients (keys : List (String × String)) (initOk : String → Bool) :
    List (String × Bool) :=
  keys.map (fun p => (p.1, initOk p.2))

/-- `GeminiClient.__init__` on a fresh process (lines 38-57, with the
class-level defaults of lines 31-36): load the keys, zero the failure
counters, initialize the clients, start at shared index 0 with the breaker
untripped.  The source contains no `raise` on this path: construction
always yields a state, even when zero keys were loaded. -/
def geminiClientInit (env : PyEnv) (initOk : String → Bool) : GState :=
  let keys := load_api_keys env
  { apiKeys := keys,
    clients := initialize_all_clients keys initOk,
    keyIndex := 0,
    keyFailures := keys.map (fun p => (p.1, 0)),
    allKeysExhausted := false }

/-- The environment with no Gemini key configured at all. -/
def emptyEnv : PyEnv := ⟨none, none, none, none⟩

/-- A freshly constructed client whose `BACKUP_1` `genai.Client` constructor
failed (its slot holds `None`), while `PRIMARY` initialized fine. -/
def rotBadState : GState :=
  geminiClientInit ⟨some "keyA", some "keyB", none, none⟩ (fun secret => secret == "keyA")

/-- The attribute names ever assigned on `GeminiClient` or its instances:
the class body (lines 31-36) and `__init__` (lines 38-57).  Note that
`current_key_index` is not among them. -/
def geminiClientAttrs : List String :=
  ["_shared_key_index", "_shared_key_failures", "_shared_clients", "_api_keys_loaded",
   "_all_keys_exhausted", "api_keys", "clients", "key_failures", "model_name",
   "max_tokens", "temperature", "mock_mode"]

/-- Python attribute read of a numeric attribute on a `GeminiClient`
instance: raises `AttributeError` when the name was never assigned,
otherwise yields the stored value (`valueIfAssigned`). -/
def getAttrNat (name : String) (valueIfAssigned : Nat) : Except String Nat :=
  if geminiClientAttrs.contains name then Except.ok valueIfAssigned
  else Except.error ("AttributeError: " ++ name)

/-- The dictionary `get_key_rotation_info` is documented to return
(lines 540-548). -/
structure RotationInfo where
  current_key : String
  current_index : Nat
  total_keys : Nat
  key_failures : List (String × Nat)
  keys : List String
deriving DecidableEq, Repr

/-- `get_key_rotation_info` (lines 540-548): builds its dictionary reading
`self.current_key_index` (line 544); the read is modelled by `getAttrNat`
(were the attribute assigned, the intended value would be the shared index). -/
def get_key_rotation_info (s : GState) : Except String RotationInfo :=
  match getAttrNat "current_key_index" s.keyIndex with
  | Except.error e => Except.error e
  | Except.ok idx =>
      Except.ok
        { current_key := getCurrentKeyName s,
          current_index := idx,
          total_keys := s.apiKeys.length,
          key_failures := s.keyFailures,
          keys := s.apiKeys.map (fun p => p.1) }

/-- An operation on the shared dispatcher state: a bare rotation, or a full
`call_with_retry` invocation (which internally records failures/successes
and may rotate or trip the breaker). -/
inductive DispatchOp where
  | rotate : DispatchOp
  | call (transport : String → RemoteOutcome) (jitter : Nat → ℚ) (maxRetries : Nat) : DispatchOp

/-- Effect of one operation on the shared state. -/
def applyOp (s : GState) : DispatchOp → GState
  | DispatchOp.rotate => (rotateToNextKey s).2
  | DispatchOp.call transport jitter maxRetries => (call_with_retry transport jitter s maxRetries).2.1

/-- Run a sequence of operations on the shared state. -/
def runOps (s : GState) : List DispatchOp → GState
  | [] => s
  | op :: rest => runOps (applyOp s op) rest

/-- Every slot of the pool has an initialized client. -/
def allClientsUp (s : GState) : Bool :=
  s.apiKeys.all (fun p => clientUp s.clients p.1)

/-- The randomness drawn by `_enhanced_mock_parse`, one field per `random.*`
call site of lines 374-518: `choicePick` indexes `random.choice` on the
users fallback list (line 413), `rpsPick` drives `random.randint` for
`estimated_rps` (lines 417-423), `patternPick` indexes `random.choice` on
the traffic patterns (line 433), and `confFrac` is the fraction drawn by
`random.uniform` for the confidence (lines 490-494; faithful when it lies
in `[0, 1]`). -/
structure MockEnv where
  choicePick : Nat
  rpsPick : Nat
  patternPick : Nat
  confFrac : ℚ
deriving DecidableEq, Repr

/-- `random.randint(a, b)` drawn from `pick`: always lands in `[a, b]`. -/
def randintM (pick a b : Nat) : Nat := a + pick % (b - a + 1)

/-- `random.uniform(a, b)` drawn as `a + r * (b - a)` for a fraction `r`. -/
def uniformQ (a b r : ℚ) : ℚ := a + r * (b - a)

/-- Python `round(x, 2)` on the confidence value (lines 490-494). -/
def roundTo2 (q : ℚ) : ℚ := (round (q * 100) : ℤ) / 100

/-- The workload keyword table of lines 383-391, in python dict insertion
order (note the source has no entry for `batch_processing`). -/
def workloadKeywords : List (String × List String) :=
  [("api_backend", ["api", "rest", "endpoint", "backend", "service", "microservice"]),
   ("web_app", ["web", "website", "frontend", "app", "portal", "dashboard"]),
   ("data_processing", ["data", "process", "etl", "pipeline", "batch", "analytics"]),
   ("ml_inference", ["ml", "ai", "model", "learning", "inference", "prediction"]),
   ("realtime_streaming", ["stream", "realtime", "live", "websocket", "socket"]),
   ("mobile_backend", ["mobile", "app backend", "ios", "android"]),
   ("gaming_server", ["game", "gaming", "multiplayer", "real-time"])]

/-- Workload detection (lines 393-397): the first table entry one of whose
keywords occurs in the lowercased input, defaulting to `"api_backend"`. -/
def detectWorkload (inputLower : String) : String :=
  match workloadKeywords.find? (fun p => p.2.any (fun kw => strContains inputLower kw)) with
  | some p => p.1
  | none => "api_backend"

/-- One step of python's `re.findall(r'\d+[,.]?\d*[kKmM]?', ...)` after the
mandatory `\d+` part: greedily take an optional `,` or `.`, then digits,
then an optional `k`/`K`/`m`/`M`; returns the consumed characters and the
remaining input. -/
def matchNumTail (l : List Char) : List Char × List Char :=
  let sep : List Char × List Char :=
    match l with
    | c :: rest => if c == ',' || c == '.' then ([c], rest) else ([], l)
    | [] => ([], [])
  let ds := sep.2.takeWhile (fun ch => ch.isDigit)
  let r2 := sep.2.dropWhile (fun ch => ch.isDigit)
  let km : List Char × List Char :=
    match r2 with
    | c :: rest => if c == 'k' || c == 'K' || c == 'm' || c == 'M' then ([c], rest) else ([], r2)
    | [] => ([], [])
  (sep.1 ++ ds ++ km.1, km.2)

/-- Scanner for `re.findall(r'\d+[,.]?\d*[kKmM]?', user_input)` (line 400):
at each digit, greedily consume one maximal match and continue after it.
`fuel` bounds the recursion; every step consumes at least one character, so
the input length is enough fuel. -/
def findNumbersAux : Nat → List Char → List (List Char)
  | 0, _ => []
  | _ + 1, [] => []
  | fuel + 1, c :: rest =>
      if c.isDigit then
        let d := (c :: rest).takeWhile (fun ch => ch.isDigit)
        let r1 := (c :: rest).dropWhile (fun ch => ch.isDigit)
        let t := matchNumTail r1
        (d ++ t.1) :: findNumbersAux fuel t.2
      else findNumbersAux fuel rest

/-- All matches of `\d+[,.]?\d*[kKmM]?` in the input, in order. -/
def findNumbers (l : List Char) : List (List Char) :=
  findNumbersAux l.length l

/-- Value of a digit string. -/
def digitsVal (l : List Char) : Nat :=
  l.foldl (fun acc c => acc * 10 + (c.toNat - 48)) 0

/-- Python `float(s)` restricted to the strings reaching it at lines
407-411 after `.lower()` and `replace` — digits possibly followed by one
`.` or `,` and more digits.  A remaining `,` (or any other leftover) makes
`float` raise `ValueError`, modelled as `none`. -/
def parseFloatQ (l : List Char) : Option ℚ :=
  let intPart := l.takeWhile (fun c => c.isDigit)
  let rest := l.dropWhile (fun c => c.isDigit)
  if intPart.isEmpty then none
  else
    match rest with
    | [] => some (digitsVal intPart)
    | '.' :: fracPart =>
        if fracPart.all (fun c => c.isDigit) then
          some ((digitsVal intPart : ℚ) + (digitsVal fracPart : ℚ) / 10 ^ fracPart.length)
        else none
    | _ => none

/-- The `monthly_users` conversion of lines 401-413: lowercase the first
regex match, scale by the `k`/`m` suffix, truncate to int; on a conversion
error fall back to `random.choice([1000, 5000, 10000, 50000, 100000])`. -/
def kmScaledUsers (env : MockEnv) (numStr : List Char) : Nat :=
  let parsed : Option Nat :=
    if numStr.contains 'k' then
      (parseFloatQ (numStr.filter (fun c => c != 'k'))).map (fun q => (q * 1000).floor.toNat)
    else if numStr.contains 'm' then
      (parseFloatQ (numStr.filter (fun c => c != 'm'))).map (fun q => (q * 1000000).floor.toNat)
    else (parseFloatQ numStr).map (fun q => q.floor.toNat)
  match parsed with
  | some v => v
  | none => [1000, 5000, 10000, 50000, 100000].getD (env.choicePick % 5) 10000

/-- `monthly_users` (lines 400-413): 10000 when the input contains no
number, else the scaled first match. -/
def monthlyUsersOf (env : MockEnv) (userInput : String) : Nat :=
  match findNumbers userInput.data with
  | [] => 10000
  | n :: _ => kmScaledUsers env (n.map Char.toLower)

/-- `estimated_rps` (lines 416-423): a `random.randint` range picked by the
user-count tier. -/
def estimatedRpsOf (env : MockEnv) (monthlyUsers : Nat) : Nat :=
  if monthlyUsers < 1000 then randintM env.rpsPick 1 10
  else if monthlyUsers < 10000 then randintM env.rpsPick 10 50
  else if monthlyUsers < 100000 then randintM env.rpsPick 50 200
  else randintM env.rpsPick 200 1000

/-- `traffic_pattern` (lines 426-433). -/
def trafficPatternOf (env : MockEnv) (inputLower : String) : String :=
  if ["steady", "consistent", "constant"].any (fun w => strContains inputLower w) then "steady"
  else if ["burst", "spike", "peak", "seasonal"].any (fun w => strContains inputLower w) then
    "bursty"
  else if ["variable", "varying"].any (fun w => strContains inputLower w) then "variable"
  else ["steady", "variable", "bursty"].getD (env.patternPick % 3) "steady"

/-- The region keyword table of lines 436-443, in dict insertion order. -/
def regionKeywords : List (String × List String) :=
  [("india", ["india", "mumbai", "delhi", "bangalore", "chennai"]),
   ("us-east", ["us east", "virginia", "us-east"]),
   ("us-west", ["us west", "oregon", "california", "us-west"]),
   ("europe", ["europe", "frankfurt", "london", "paris"]),
   ("asia", ["asia", "singapore", "tokyo"]),
   ("australia", ["australia", "sydney"])]

/-- `geography` (lines 445-449): first matching region, default `"global"`. -/
def geographyOf (inputLower : String) : String :=
  match regionKeywords.find? (fun p => p.2.any (fun kw => strContains inputLower kw)) with
  | some p => p.1
  | none => "global"

/-- `latency` (lines 452-456). -/
def latencyOf (inputLower : String) : String :=
  if strContains inputLower "low latency" || strContains inputLower "fast" then "low"
  else if strContains inputLower "ultra low" || strContains inputLower "real-time" then
    "ultra_low"
  else "medium"

/-- `availability` (lines 458-460). -/
def availabilityOf (inputLower : String) : String :=
  if strContains inputLower "high availability" || strContains inputLower "99.9" then "critical"
  else "high"

/-- `compliance` (lines 462-468). -/
def complianceOf (inputLower : String) : List String :=
  (if strContains inputLower "gdpr" || strContains inputLower "europe" then ["gdpr"] else []) ++
  (if strContains inputLower "hipaa" || strContains inputLower "health" then ["hipaa"] else []) ++
  (if strContains inputLower "pci" || strContains inputLower "payment" then ["pci"] else [])

/-- `budget_sensitivity` (lines 471-473). -/
def budgetSensitivityOf (inputLower : String) : String :=
  if strContains inputLower "budget" &&
      (["tight", "low", "cost"].any (fun w => strContains inputLower w)) then "high"
  else "medium"

/-- `team_experience` (lines 475-479). -/
def teamExperienceOf (inputLower : String) : String :=
  if ["junior", "beginner", "new"].any (fun w => strContains inputLower w) then "junior"
  else if ["senior", "expert"].any (fun w => strContains inputLower w) then "senior"
  else "intermediate"

/-- `time_to_market` (lines 481-485). -/
def timeToMarketOf (inputLower : String) : String :=
  if ["urgent", "immediate", "asap"].any (fun w => strContains inputLower w) then "immediate"
  else if ["week", "soon"].any (fun w => strContains inputLower w) then "1_week"
  else "1_month"

/-- Number of whitespace-separated words, python `len(s.split())`. -/
def countWordsAux : List Char → Bool → Nat
  | [], _ => 0
  | c :: rest, inWord =>
      if c.isWhitespace then countWordsAux rest false
      else (if inWord then 0 else 1) + countWordsAux rest true

/-- `word_count` of line 488. -/
def wordCount (input : String) : Nat := countWordsAux input.data false

/-- `parsing_confidence` (lines 488-494): a `random.uniform` range picked by
the word count (`3/5 = 0.6`, `3/4 = 0.75`, `17/20 = 0.85`, `19/20 = 0.95`),
rounded to two decimals. -/
def mockConfidence (env : MockEnv) (userInput : String) : ℚ :=
  let wc := wordCount userInput
  if wc < 10 then roundTo2 (uniformQ (3/5) (3/4) env.confFrac)
  else if wc < 30 then roundTo2 (uniformQ (3/4) (17/20) env.confFrac)
  else roundTo2 (uniformQ (17/20) (19/20) env.confFrac)

/-- The result dictionary of this subsystem, with the nested `scale`,
`requirements` and `constraints` objects flattened into fields.  The
wall-clock fields (`processing_time_ms`, `timestamp`) are outside the
embedding.  `active_key` is absent from the mock dictionary itself
(modelled as `""`) and is assigned by the callers. -/
structure IntentResult where
  workload_type : String
  monthly_users : Nat
  estimated_rps : Nat
  traffic_pattern : String
  latency : String
  availability : String
  geography : String
  compliance : List String
  budget_sensitivity : String
  team_experience : String
  time_to_market : String
  parsing_confidence : ℚ
  parsing_source : String
  llm_model : String
  active_key : String
deriving DecidableEq, Repr

/-- `_enhanced_mock_parse` (lines 374-518): the deterministic-heuristic
fallback responder, total on every input. -/
def enhancedMockParse (env : MockEnv) (userInput : String) : IntentResult :=
  let inputLower := userInput.toLower
  let monthlyUsers := monthlyUsersOf env userInput
  { workload_type := detectWorkload inputLower,
    monthly_users := monthlyUsers,
    estimated_rps := estimatedRpsOf env monthlyUsers,
    traffic_pattern := trafficPatternOf env inputLower,
    latency := latencyOf inputLower,
    availability := availabilityOf inputLower,
    geography := geographyOf inputLower,
    compliance := complianceOf inputLower,
    budget_sensitivity := budgetSensitivityOf inputLower,
    team_experience := teamExperienceOf inputLower,
    time_to_market := timeToMarketOf inputLower,
    parsing_confidence := mockConfidence env userInput,
    parsing_source := "enhanced_mock",
    llm_model := "mock_heuristic_v1",
    active_key := "" }

/-- The valid workload list of `_validate_intent_structure` (lines 361-365). -/
def validWorkloads : List String :=
  ["api_backend", "web_app", "data_processing", "ml_inference", "batch_processing",
   "realtime_streaming", "mobile_backend", "gaming_server"]

/-- `_validate_intent_structure` (lines 350-372) as a boolean check: the
required fields exist (statically true of the structure), the workload type
is valid, and the confidence lies in `[0, 1]`. -/
def validateIntentStructure (r : IntentResult) : Bool :=
  validWorkloads.contains r.workload_type &&
  decide (0 ≤ r.parsing_confidence) && decide (r.parsing_confidence ≤ 1)

/-- How the response post-processing of `_parse_with_gemini` (lines 236-263)
can fail: a `json.JSONDecodeError` (caught at line 275, falling back to the
mock) or any other exception such as the `ValueError`s of lines 251, 258 and
359 (re-raised at line 280). -/
inductive PostError where
  | jsonDecode (msg : String)
  | other (msg : String)
deriving DecidableEq, Repr

/-- Errors observable from `_parse_with_gemini`. -/
inductive GeminiError where
  | dispatch (e : DispatchError)
  | post (msg : String)
deriving DecidableEq, Repr

/-- `_parse_with_gemini` (lines 224-280): dispatch through
`call_with_retry` (with the default `max_retries = 3`), then post-process
the response through `extract` (the text/JSON extraction and validation of
lines 236-263, abstracted as a function of the payload).  A
`json.JSONDecodeError` falls back to the mock; every other exception is
re-raised; on success the metadata fields of lines 266-268 are attached. -/
def parseWithGemini (transport : String → RemoteOutcome) (jitter : Nat → ℚ)
    (extract : Nat → Except PostError IntentResult) (env : MockEnv) (modelName : String)
    (s : GState) (userInput : String) :
    (Except GeminiError IntentResult) × GState × Trace :=
  match call_with_retry transport jitter s 3 with
  | (Except.error e, s1, tr) => (Except.error (GeminiError.dispatch e), s1, tr)
  | (Except.ok payload, s1, tr) =>
      match extract payload with
      | Except.error (PostError.jsonDecode _) => (Except.ok (enhancedMockParse env userInput), s1, tr)
      | Except.error (PostError.other m) => (Except.error (GeminiError.post m), s1, tr)
      | Except.ok r =>
          (Except.ok
            { r with
              parsing_source := "gemini_api",
              llm_model := modelName,
              active_key := getCurrentKeyName s1 }, s1, tr)

/-- `parse_intent` (lines 203-222): try the real pipeline; on any exception
fall back to `_enhanced_mock_parse` with `active_key = "MOCK_FALLBACK"`.
On the success path `active_key` is set to the current key (line 212). -/
def parse_intent (transport : String → RemoteOutcome) (jitter : Nat → ℚ)
    (extract : Nat → Except PostError IntentResult) (env : MockEnv) (modelName : String)
    (s : GState) (userInput : String) : IntentResult × GState × Trace :=
  match parseWithGemini transport jitter extract env modelName s userInput with
  | (Except.ok r, s1, tr) => ({ r with active_key := getCurrentKeyName s1 }, s1, tr)
  | (Except.error _, s1, tr) =>
      ({ enhancedMockParse env userInput with active_key := "MOCK_FALLBACK" }, s1, tr)

/-- The two-key pool after the global breaker has been tripped. -/
def trippedState : GState := { twoKeyState with allKeysExhausted := true }

/-- A fixed randomness draw for the fallback responder. -/
def mockEnvHalf : MockEnv := ⟨0, 0, 0, 1/2⟩

/-- A post-processing stage that always raises a `ValueError`. -/
def failingExtract : Nat → Except PostError IntentResult :=
  fun _ => Except.error (PostError.other "Could not extract valid JSON from response")

/-- Overwriting a key and reading it back yields the written value. -/
theorem lookupD_setA_same {α : Type} (l : List (String × α)) (k : String) (v d : α) :
    lookupD (setA l k v) k d = v := by
  induction l with
  | nil => simp [setA, lookupD]
  | cons hd tl ih =>
      obtain ⟨k1, v1⟩ := hd
      by_cases h : k1 = k
      · simp [setA, lookupD, h]
      · simp [setA, lookupD, h, ih]

/-- C10: on every client state, the public status method
`get_key_rotation_info` raises `AttributeError`, because it reads the
attribute `current_key_index`, which is assigned nowhere on the class or its
instances (the shared index lives in `_shared_key_index`); the method can
never return its documented dictionary. -/
theorem C10_get_key_rotation_info_always_raises (s : GState) :
    get_key_rotation_info s = Except.error "AttributeError: current_key_index" := rfl

/-- C2: once the exhaustion breaker is tripped, `parse_intent` returns the
fallback-sourced result (`active_key = "MOCK_FALLBACK"`, and its
`parsing_source` is `"enhanced_mock"`) with an empty trace — zero remote
attempts, zero rotations, zero backoffs — and leaves the shared state
unchanged, so the breaker stays tripped for every subsequent call. -/
theorem C2_breaker_short_circuits (transport : String → RemoteOutcome) (jitter : Nat → ℚ)
    (extract : Nat → Except PostError IntentResult) (env : MockEnv) (modelName : String)
    (s : GState) (input : String) (h : s.allKeysExhausted = true) :
    parse_intent transport jitter extract env modelName s input =
      ({ enhancedMockParse env input with active_key := "MOCK_FALLBACK" }, s, emptyTrace) := by
  unfold parse_intent parseWithGemini call_with_retry
  rw [h]
  simp

/-- C2 witness: the general theorem applied to the tripped two-key pool. -/
theorem C2_breaker_short_circuits_witness :
    parse_intent quotaTransport zeroJitter failingExtract mockEnvHalf "gemini-2.5-flash-lite"
        trippedState "deploy a web app" =
      ({ enhancedMockParse mockEnvHalf "deploy a web app" with active_key := "MOCK_FALLBACK" },
       trippedState, emptyTrace) :=
  C2_breaker_short_circuits quotaTransport zeroJitter failingExtract mockEnvHalf
    "gemini-2.5-flash-lite" trippedState "deploy a web app" rfl

/-- C4: a non-quota remote error (message containing neither "429" nor
"RESOURCE_EXHAUSTED") makes the dispatcher fail immediately by re-raising
that error: exactly one attempt, no rotation call, no backoff, and every
state field except the failure counter of the current key — in particular
the shared index — unchanged. -/
theorem C4_nonquota_fails_immediately (transport : String → RemoteOutcome) (jitter : Nat → ℚ)
    (s : GState) (msg : String) (mr : Nat)
    (hb : s.allKeysExhausted = false)
    (hup : clientUp s.clients (getCurrentKeyName s) = true)
    (htr : transport (getCurrentKeyName s) = RemoteOutcome.error msg)
    (hq : isQuotaError msg = false) :
    call_with_retry transport jitter s (mr + 1) =
      (Except.error (DispatchError.remoteError msg),
       { s with
         keyFailures := setA s.keyFailures (getCurrentKeyName s)
           (lookupD s.keyFailures (getCurrentKeyName s) 0 + 1) },
       ⟨[getCurrentKeyName s], [], []⟩) := by
  unfold call_with_retry callLoop
  simp [hb, hup, htr, hq, emptyTrace]

/-- C4 witness: a 400-style error on the two-key pool fails at once with the
index still on `PRIMARY`. -/
theorem C4_nonquota_fails_immediately_witness :
    call_with_retry (fun _ => RemoteOutcome.error "400 bad request") zeroJitter twoKeyState 3 =
      (Except.error (DispatchError.remoteError "400 bad request"),
       { twoKeyState with
         keyFailures := setA twoKeyState.keyFailures (getCurrentKeyName twoKeyState)
           (lookupD twoKeyState.keyFailures (getCurrentKeyName twoKeyState) 0 + 1) },
       ⟨[getCurrentKeyName twoKeyState], [], []⟩) :=
  C4_nonquota_fails_immediately (fun _ => RemoteOutcome.error "400 bad request") zeroJitter
    twoKeyState "400 bad request" 2 rfl rfl rfl (by decide)

/-- C8: a single-slot pool whose remote call quota-fails raises
`AllSlotsExhausted` ("All API keys quota exhausted") on the first attempt:
the one rotation call performs no rotation (the index stays at 0), no
backoff is slept, and the breaker is tripped. -/
theorem C8_single_slot_exhausts (name secret msg : String)
    (cl : List (String × Bool)) (kf : List (String × Nat))
    (transport : String → RemoteOutcome) (jitter : Nat → ℚ) (mr : Nat)
    (hup : clientUp cl name = true)
    (htr : transport name = RemoteOutcome.error msg)
    (hq : isQuotaError msg = true) :
    call_with_retry transport jitter ⟨[(name, secret)], cl, 0, kf, false⟩ (mr + 1) =
      (Except.error DispatchError.allKeysExhausted,
       ⟨[(name, secret)], cl, 0, setA kf name (lookupD kf name 0 + 1), true⟩,
       ⟨[name], [], [false]⟩) := by
  unfold call_with_retry callLoop
  simp [getCurrentKeyName, getKeyNameAt, rotateToNextKey, hup, htr, hq, emptyTrace]

/-- C8 witness: the single-`PRIMARY` pool under a 429. -/
theorem C8_single_slot_exhausts_witness :
    call_with_retry quotaTransport zeroJitter
        ⟨[("PRIMARY", "keyA")], [("PRIMARY", true)], 0, [("PRIMARY", 0)], false⟩ 3 =
      (Except.error DispatchError.allKeysExhausted,
       ⟨[("PRIMARY", "keyA")], [("PRIMARY", true)], 0,
        setA [("PRIMARY", 0)] "PRIMARY" (lookupD [("PRIMARY", 0)] "PRIMARY" 0 + 1), true⟩,
       ⟨["PRIMARY"], [], [false]⟩) :=
  C8_single_slot_exhausts "PRIMARY" "keyA" "429" [("PRIMARY", true)] [("PRIMARY", 0)]
    quotaTransport zeroJitter 2 rfl rfl (by decide)

/-- C9: on the pool `[P, B1]` with `P` quota-failing and `B1` succeeding,
the dispatcher returns `B1`'s payload after exactly one (successful)
rotation and exactly one backoff of `2^0` plus the drawn jitter; the breaker
stays untripped and `B1`'s failure counter is reset to 0 on its success. -/
theorem C9_failover_to_backup (p b ps bs msg : String) (pay : Nat)
    (kf : List (String × Nat)) (transport : String → RemoteOutcome) (jitter : Nat → ℚ)
    (hpb : p ≠ b)
    (htp : transport p = RemoteOutcome.error msg)
    (htb : transport b = RemoteOutcome.success pay)
    (hq : isQuotaError msg = true) :
    call_with_retry transport jitter
        ⟨[(p, ps), (b, bs)], [(p, true), (b, true)], 0, kf, false⟩ 3 =
      (Except.ok pay,
       ⟨[(p, ps), (b, bs)], [(p, true), (b, true)], 1,
        setA (setA kf p (lookupD kf p 0 + 1)) b 0, false⟩,
       ⟨[p, b], [2 ^ 0 + jitter 0], [true]⟩) ∧
    lookupD (setA (setA kf p (lookupD kf p 0 + 1)) b 0) b 0 = 0 := by
  constructor
  · unfold call_with_retry
    simp [callLoop, getCurrentKeyName, getKeyNameAt, rotateToNextKey, rotAux, clientUp,
      lookupD, hpb, Ne.symm hpb, htp, htb, hq, emptyTrace]
  · exact lookupD_setA_same (setA kf p (lookupD kf p 0 + 1)) b 0 0

/-- C9 witness: concrete `PRIMARY`/`BACKUP_1` pool. -/
theorem C9_failover_to_backup_witness :
    call_with_retry (fun k => if k = "PRIMARY" then RemoteOutcome.error "429"
        else RemoteOutcome.success 7) halfJitter
        ⟨[("PRIMARY", "keyA"), ("BACKUP_1", "keyB")],
         [("PRIMARY", true), ("BACKUP_1", true)], 0, [("PRIMARY", 0), ("BACKUP_1", 0)], false⟩ 3 =
      (Except.ok 7,
       ⟨[("PRIMARY", "keyA"), ("BACKUP_1", "keyB")],
        [("PRIMARY", true), ("BACKUP_1", true)], 1,
        setA (setA [("PRIMARY", 0), ("BACKUP_1", 0)] "PRIMARY"
          (lookupD [("PRIMARY", 0), ("BACKUP_1", 0)] "PRIMARY" 0 + 1)) "BACKUP_1" 0, false⟩,
       ⟨["PRIMARY", "BACKUP_1"], [2 ^ 0 + halfJitter 0], [true]⟩) :=
  (C9_failover_to_backup "PRIMARY" "BACKUP_1" "keyA" "keyB" "429" 7
    [("PRIMARY", 0), ("BACKUP_1", 0)] _ halfJitter (by decide) rfl (by decide) (by decide)).1

/-- C1 (code behaviour at the failing input): with two initialized slots
both quota-failing, one `call_with_retry` makes `max_retries = 3` remote
attempts `PRIMARY, BACKUP_1, PRIMARY` — repeating a slot within the cycle —
then re-raises the raw 429 error instead of `AllSlotsExhausted`, and the
breaker is never tripped: every rotation succeeds because the other
initialized key exists, so `_all_keys_exhausted` can only ever be set for a
pool with at most one usable client. -/
theorem C1_code_behavior :
    call_with_retry quotaTransport halfJitter twoKeyState 3 =
      (Except.error (DispatchError.remoteError "429"),
       ⟨[("PRIMARY", "keyA"), ("BACKUP_1", "keyB")],
        [("PRIMARY", true), ("BACKUP_1", true)], 1,
        [("PRIMARY", 2), ("BACKUP_1", 1)], false⟩,
       ⟨["PRIMARY", "BACKUP_1", "PRIMARY"],
        [2 ^ 0 + halfJitter 0, 2 ^ 1 + halfJitter 1, 2 ^ 2 + halfJitter 2],
        [true, true, true]⟩) := rfl

/-- C7 counterexample: with both slots quota-failing and zero jitter the
trace records three backoff waits `[2^0, 2^1, 2^2]` for the three attempts:
the last wait is slept after the final attempt of the cycle, right before
the dispatcher gives up — refuting "never after the final attempt"; the
delay formula also carries no cap. -/
theorem C7_counterexample :
    (call_with_retry quotaTransport zeroJitter twoKeyState 3).2.2.backoffs = [1, 2, 4] ∧
    (call_with_retry quotaTransport zeroJitter twoKeyState 3).2.2.attempts.length = 3 ∧
    (call_with_retry quotaTransport zeroJitter twoKeyState 3).1 =
      Except.error (DispatchError.remoteError "429") := by
  refine ⟨?_, by decide, by decide⟩
  have h : (call_with_retry quotaTransport zeroJitter twoKeyState 3).2.2.backoffs =
      [2 ^ 0 + zeroJitter 0, 2 ^ 1 + zeroJitter 1, 2 ^ 2 + zeroJitter 2] := rfl
  rw [h]
  norm_num [zeroJitter]

/-- C3 counterexample: on a freshly constructed client whose `BACKUP_1`
client failed to initialize, the rotation attempt returns `false` but still
leaves the shared index moved to slot 1, whose client is `None` — the index
no longer points at a slot that was usable at construction time. -/
theorem C3_counterexample :
    (rotateToNextKey rotBadState).1 = false ∧
    (rotateToNextKey rotBadState).2.keyIndex = 1 ∧
    clientUp (rotateToNextKey rotBadState).2.clients
      (getCurrentKeyName (rotateToNextKey rotBadState).2) = false := by
  decide

/-- C6 counterexample: with zero configured keys, `_load_api_keys` returns
the empty list and construction still succeeds, yielding a client state
with an empty pool and untripped breaker — no `ConfigurationError` or any
other exception aborts initialization. -/
theorem C6_counterexample :
    load_api_keys emptyEnv = [] ∧
    geminiClientInit emptyEnv (fun _ => true) =
      { apiKeys := [], clients := [], keyIndex := 0, keyFailures := [],
        allKeysExhausted := false } := by
  decide

/-- C6 (amended): when zero usable keys are found in the environment,
startup does not abort: an error is only logged, the client is constructed
with an empty pool, and every subsequent `parse_intent` call on it degrades
to the fallback responder. -/
theorem C6_amended_no_abort (env : PyEnv) (initOk : String → Bool)
    (h1 : env.geminiApiKey = none) (h2 : env.geminiApiKey1 = none)
    (h3 : env.geminiApiKey2 = none) (h4 : env.geminiApiKey3 = none) :
    (geminiClientInit env initOk).apiKeys = [] ∧
    ∀ (transport : String → RemoteOutcome) (jitter : Nat → ℚ)
      (extract : Nat → Except PostError IntentResult) (menv : MockEnv)
      (modelName input : String),
      (parse_intent transport jitter extract menv modelName
          (geminiClientInit env initOk) input).1.active_key = "MOCK_FALLBACK" := by
  have hs : geminiClientInit env initOk =
      { apiKeys := [], clients := [], keyIndex := 0, keyFailures := [],
        allKeysExhausted := false } := by
    simp [geminiClientInit, load_api_keys, initialize_all_clients, h1, h2, h3, h4]
  refine ⟨by rw [hs], ?_⟩
  intro transport jitter extract menv modelName input
  rw [hs]
  rfl

/-- C6 (amended) witness: the fully-empty environment. -/
theorem C6_amended_no_abort_witness :
    (geminiClientInit emptyEnv (fun _ => true)).apiKeys = [] ∧
    (parse_intent quotaTransport zeroJitter failingExtract mockEnvHalf "gemini-2.5-flash-lite"
        (geminiClientInit emptyEnv (fun _ => true)) "an api").1.active_key = "MOCK_FALLBACK" :=
  ⟨(C6_amended_no_abort emptyEnv (fun _ => true) rfl rfl rfl rfl).1,
   (C6_amended_no_abort emptyEnv (fun _ => true) rfl rfl rfl rfl).2 quotaTransport zeroJitter
     failingExtract mockEnvHalf "gemini-2.5-flash-lite" "an api"⟩

/-- A valid index into a list makes `getD` return an element of the list. -/
theorem getD_mem {α : Type} : ∀ (l : List α) (i : Nat) (d : α), i < l.length → l.getD i d ∈ l
  | a :: tl, 0, _, _ => List.mem_cons_self a tl
  | a :: tl, i + 1, d, h => List.mem_cons_of_mem a (getD_mem tl i d (by simpa using h))

/-- The dispatcher operations never change the pool or the client table,
and they map an in-range shared index to an in-range shared index.
`poolIntact s t` packages this relation between a state and its successor. -/
def poolIntact (s t : GState) : Prop :=
  t.apiKeys = s.apiKeys ∧ t.clients = s.clients ∧
  (s.keyIndex < s.apiKeys.length → t.keyIndex < t.apiKeys.length)

/-- `poolIntact` is reflexive. -/
theorem poolIntact_rfl (s : GState) : poolIntact s s := ⟨rfl, rfl, fun h => h⟩

/-- `poolIntact` composes. -/
theorem poolIntact_trans {s t u : GState} (h1 : poolIntact s t) (h2 : poolIntact t u) :
    poolIntact s u :=
  ⟨h2.1.trans h1.1, h2.2.1.trans h1.2.1, fun h => h2.2.2 (h1.2.2 h)⟩

/-- The rotation scan keeps the pool intact. -/
theorem rotAux_preserves (o : String) : ∀ (n : Nat) (s : GState),
    poolIntact s (rotAux o n s).2 := by
  intro n
  induction n with
  | zero => intro s; exact poolIntact_rfl s
  | succ n ih =>
      intro s
      have hstep : poolIntact s { s with keyIndex := (s.keyIndex + 1) % s.apiKeys.length } :=
        ⟨rfl, rfl, fun h => Nat.mod_lt _ (Nat.lt_of_le_of_lt (Nat.zero_le _) h)⟩
      simp only [rotAux]
      split
      · exact hstep
      · exact poolIntact_trans hstep
          (ih { s with keyIndex := (s.keyIndex + 1) % s.apiKeys.length })

/-- `_rotate_to_next_key` keeps the pool intact. -/
theorem rotate_preserves (s : GState) : poolIntact s (rotateToNextKey s).2 := by
  simp only [rotateToNextKey]
  split
  · exact poolIntact_rfl s
  · exact rotAux_preserves _ _ s

/-- The retry loop keeps the pool intact (only the index, failure counters
and breaker flag can change). -/
theorem callLoop_preserves (transport : String → RemoteOutcome) (jitter : Nat → ℚ) :
    ∀ (fuel attempt : Nat) (s : GState) (le : Option String) (tr : Trace),
    poolIntact s (callLoop transport jitter fuel attempt s le tr).2.1 := by
  intro fuel
  induction fuel with
  | zero => intro attempt s le tr; exact poolIntact_rfl s
  | succ fuel ih =>
      intro attempt s le tr
      have hstep1 : poolIntact s
          { s with
            keyFailures := setA s.keyFailures (getCurrentKeyName s)
              (lookupD s.keyFailures (getCurrentKeyName s) 0 + 1) } :=
        ⟨rfl, rfl, fun h => h⟩
      simp only [callLoop]
      split
      · exact poolIntact_rfl s
      · split
        · -- client is None: rotate and continue
          refine poolIntact_trans (rotate_preserves s) (ih _ _ _ _)
        · split
          · exact ⟨rfl, rfl, fun h => h⟩
          · split
            · split
              · -- quota error, rotation succeeded: backoff and continue
                refine poolIntact_trans
                  (poolIntact_trans hstep1 (rotate_preserves _)) (ih _ _ _ _)
              · -- quota error, rotation failed: breaker tripped, raise
                exact poolIntact_trans
                  (poolIntact_trans hstep1 (rotate_preserves _)) ⟨rfl, rfl, fun h => h⟩
            · exact ⟨rfl, rfl, fun h => h⟩

/-- `call_with_retry` keeps the pool intact. -/
theorem call_with_retry_preserves (transport : String → RemoteOutcome) (jitter : Nat → ℚ)
    (s : GState) (maxRetries : Nat) :
    poolIntact s (call_with_retry transport jitter s maxRetries).2.1 := by
  unfold call_with_retry
  split
  · exact poolIntact_rfl s
  · exact callLoop_preserves transport jitter maxRetries 0 s none emptyTrace

/-- Any single operation keeps the pool intact. -/
theorem applyOp_preserves (s : GState) (op : DispatchOp) : poolIntact s (applyOp s op) := by
  cases op with
  | rotate => exact rotate_preserves s
  | call transport jitter maxRetries => exact call_with_retry_preserves transport jitter s maxRetries

/-- C3 (amended): if every slot's client initialized successfully, then
after any sequence of dispatcher operations the shared index stays in range
and points at a slot whose client is initialized.  (Without the
all-initialized hypothesis the invariant fails: see the counterexample,
where a failed rotation parks the index on a dead slot.) -/
theorem C3_amended_usable_invariant (s : GState) (ops : List DispatchOp)
    (hidx : s.keyIndex < s.apiKeys.length)
    (hup : allClientsUp s = true) :
    (runOps s ops).keyIndex < (runOps s ops).apiKeys.length ∧
    clientUp (runOps s ops).clients (getCurrentKeyName (runOps s ops)) = true := by
  induction ops generalizing s with
  | nil =>
      refine ⟨hidx, ?_⟩
      have hmem : s.apiKeys.getD s.keyIndex ("UNKNOWN", "") ∈ s.apiKeys :=
        getD_mem s.apiKeys s.keyIndex ("UNKNOWN", "") hidx
      have hall := List.all_eq_true.mp hup _ hmem
      simpa [runOps, getCurrentKeyName, hidx] using hall
  | cons op rest ih =>
      have hp := applyOp_preserves s op
      have hup2 : allClientsUp (applyOp s op) = true := by
        unfold allClientsUp
        rw [hp.1, hp.2.1]
        exact hup
      exact ih (applyOp s op) (hp.2.2 hidx) hup2

/-- C3 (amended) witness: the healthy two-key pool stays on usable slots
through a rotation followed by an all-quota dispatch cycle. -/
theorem C3_amended_usable_invariant_witness :
    (runOps twoKeyState [DispatchOp.rotate, DispatchOp.call quotaTransport zeroJitter 3]).keyIndex <
      (runOps twoKeyState
        [DispatchOp.rotate, DispatchOp.call quotaTransport zeroJitter 3]).apiKeys.length ∧
    clientUp
      (runOps twoKeyState [DispatchOp.rotate, DispatchOp.call quotaTransport zeroJitter 3]).clients
      (getCurrentKeyName
        (runOps twoKeyState [DispatchOp.rotate, DispatchOp.call quotaTransport zeroJitter 3])) =
      true :=
  C3_amended_usable_invariant twoKeyState
    [DispatchOp.rotate, DispatchOp.call quotaTransport zeroJitter 3] (by decide) (by decide)

/-- Every backoff value the retry loop appends to the trace is the
exponential-plus-jitter value of one of the attempt numbers it ran, and the
loop never appends more backoffs than remote attempts. -/
theorem callLoop_backoffs_spec (transport : String → RemoteOutcome) (jitter : Nat → ℚ) :
    ∀ (fuel attempt : Nat) (s : GState) (le : Option String) (tr : Trace),
    (∀ b ∈ (callLoop transport jitter fuel attempt s le tr).2.2.backoffs,
        b ∈ tr.backoffs ∨ ∃ n, attempt ≤ n ∧ n < attempt + fuel ∧ b = 2 ^ n + jitter n) ∧
    (callLoop transport jitter fuel attempt s le tr).2.2.backoffs.length + tr.attempts.length ≤
      (callLoop transport jitter fuel attempt s le tr).2.2.attempts.length +
        tr.backoffs.length := by
  intro fuel
  induction fuel with
  | zero =>
      intro attempt s le tr
      exact ⟨fun b hb => Or.inl hb,
        Nat.le_of_eq (Nat.add_comm tr.backoffs.length tr.attempts.length)⟩
  | succ fuel ih =>
      intro attempt s le tr
      simp only [callLoop]
      split
      · exact ⟨fun b hb => Or.inl hb,
          Nat.le_of_eq (Nat.add_comm tr.backoffs.length tr.attempts.length)⟩
      · split
        · -- client is None: rotate and continue; the trace gains only a
          -- rotation record
          refine ⟨fun b hb => ?_, ?_⟩
          · rcases ((ih _ _ _ _).1 b hb) with h | ⟨n, hn1, hn2, hn3⟩
            · exact Or.inl h
            · exact Or.inr ⟨n, by omega, by omega, hn3⟩
          · have h2 := (ih (attempt + 1) (rotateToNextKey s).2 le
              { tr with rotateResults := tr.rotateResults ++ [(rotateToNextKey s).1] }).2
            exact h2
        · split
          · -- success: one more attempt, no backoff
            refine ⟨fun b hb => Or.inl hb, ?_⟩
            dsimp only
            simp only [List.length_append, List.length_cons, List.length_nil]
            omega
          · rename_i msg heq
            split
            · split
              · -- quota error, rotation succeeded: one more attempt and one
                -- more backoff, of value 2 ^ attempt + jitter attempt
                refine ⟨fun b hb => ?_, ?_⟩
                · rcases ((ih _ _ _ _).1 b hb) with h | ⟨n, hn1, hn2, hn3⟩
                  · rcases List.mem_append.mp h with h1 | h1
                    · exact Or.inl h1
                    · exact Or.inr ⟨attempt, Nat.le_refl _, by omega,
                        List.mem_singleton.mp h1⟩
                  · exact Or.inr ⟨n, by omega, by omega, hn3⟩
                · have h2 := (ih (attempt + 1)
                    (rotateToNextKey
                      { s with
                        keyFailures := setA s.keyFailures (getCurrentKeyName s)
                          (lookupD s.keyFailures (getCurrentKeyName s) 0 + 1) }).2
                    (some msg)
                    { attempts := tr.attempts ++ [getCurrentKeyName s],
                      backoffs := tr.backoffs ++ [2 ^ attempt + jitter attempt],
                      rotateResults := tr.rotateResults ++
                        [(rotateToNextKey
                          { s with
                            keyFailures := setA s.keyFailures (getCurrentKeyName s)
                              (lookupD s.keyFailures (getCurrentKeyName s) 0 + 1) }).1] }).2
                  dsimp only at h2 ⊢
                  simp only [List.length_append, List.length_cons, List.length_nil] at h2 ⊢
                  omega
              · -- quota error, rotation failed: one more attempt, no backoff
                refine ⟨fun b hb => Or.inl hb, ?_⟩
                dsimp only
                simp only [List.length_append, List.length_cons, List.length_nil]
                omega
            · -- non-quota error: one more attempt, no backoff
              refine ⟨fun b hb => Or.inl hb, ?_⟩
              dsimp only
              simp only [List.length_append, List.length_cons, List.length_nil]
              omega

/-- C7 (amended): the backoff slept between attempts equals exactly
`2 ^ attempt` plus the drawn jitter — with jitter in `[0, 1]` every delay is
at most `2 ^ n + 1` for some attempt number `n < max_retries`, but no
explicit cap is applied — and a dispatch never sleeps more backoffs than it
makes remote attempts (in particular it never sleeps before the first
attempt; the counterexample shows it does sleep after the final one). -/
theorem C7_amended_backoff_spec (transport : String → RemoteOutcome) (jitter : Nat → ℚ)
    (s : GState) (mr : Nat) (hjit : ∀ n, 0 ≤ jitter n ∧ jitter n ≤ 1) :
    (∀ b ∈ (call_with_retry transport jitter s mr).2.2.backoffs,
        ∃ n, n < mr ∧ b = 2 ^ n + jitter n ∧ b ≤ 2 ^ n + 1) ∧
    (call_with_retry transport jitter s mr).2.2.backoffs.length ≤
      (call_with_retry transport jitter s mr).2.2.attempts.length := by
  unfold call_with_retry
  split
  · exact ⟨fun b hb => absurd hb (by simp [emptyTrace]), by simp [emptyTrace]⟩
  · have h := callLoop_backoffs_spec transport jitter mr 0 s none emptyTrace
    refine ⟨fun b hb => ?_, ?_⟩
    · rcases h.1 b hb with h1 | ⟨n, _, hn2, hn3⟩
      · exact absurd h1 (by simp [emptyTrace])
      · refine ⟨n, by omega, hn3, ?_⟩
        rw [hn3]
        have := (hjit n).2
        linarith
    · have h2 := h.2
      simpa [emptyTrace] using h2

/-- C7 (amended) witness: the all-quota two-key run at zero jitter. -/
theorem C7_amended_backoff_spec_witness :
    (call_with_retry quotaTransport zeroJitter twoKeyState 3).2.2.backoffs.length ≤
      (call_with_retry quotaTransport zeroJitter twoKeyState 3).2.2.attempts.length :=
  (C7_amended_backoff_spec quotaTransport zeroJitter twoKeyState 3
    (fun _ => ⟨by norm_num [zeroJitter], by norm_num [zeroJitter]⟩)).2

/-- The fallback workload detector only ever produces workloads that
`_validate_intent_structure` accepts. -/
theorem detectWorkload_valid (t : String) :
    validWorkloads.contains (detectWorkload t) = true := by
  unfold detectWorkload
  cases h : workloadKeywords.find? (fun p => p.2.any (fun kw => strContains t kw)) with
  | none => rfl
  | some p =>
      have hmem := List.mem_of_find?_eq_some h
      simp only [workloadKeywords, List.mem_cons, List.not_mem_nil, or_false] at hmem
      rcases hmem with rfl | rfl | rfl | rfl | rfl | rfl | rfl <;> rfl

/-- Rounding a `random.uniform(a, b)` draw with `0 ≤ a ≤ b ≤ 1` to two
decimals stays within `[0, 1]`. -/
theorem roundTo2_uniform_bounds (a b r : ℚ) (h0 : 0 ≤ r) (h1 : r ≤ 1)
    (ha : 0 ≤ a) (hb : b ≤ 1) (hab : a ≤ b) :
    0 ≤ roundTo2 (uniformQ a b r) ∧ roundTo2 (uniformQ a b r) ≤ 1 := by
  have hq0 : 0 ≤ uniformQ a b r := by unfold uniformQ; nlinarith
  have hq1 : uniformQ a b r ≤ 1 := by unfold uniformQ; nlinarith
  unfold roundTo2
  constructor
  · apply div_nonneg _ (by norm_num)
    have h2 : (0 : ℤ) ≤ round (uniformQ a b r * 100) := by
      rw [round_eq]
      apply Int.floor_nonneg.mpr
      nlinarith
    exact_mod_cast h2
  · rw [div_le_one (by norm_num)]
    have h2 : round (uniformQ a b r * 100) < 101 := by
      rw [round_eq, Int.floor_lt]
      push_cast
      nlinarith
    have h3 : round (uniformQ a b r * 100) ≤ 100 := by omega
    exact_mod_cast h3

/-- The fallback confidence always lies in `[0, 1]` (each branch draws from
`[0.6, 0.75]`, `[0.75, 0.85]` or `[0.85, 0.95]` and rounds). -/
theorem mockConfidence_bounds (env : MockEnv) (input : String)
    (h0 : 0 ≤ env.confFrac) (h1 : env.confFrac ≤ 1) :
    0 ≤ mockConfidence env input ∧ mockConfidence env input ≤ 1 := by
  simp only [mockConfidence]
  by_cases hw : wordCount input < 10
  · simp only [if_pos hw]
    exact roundTo2_uniform_bounds _ _ _ h0 h1 (by norm_num) (by norm_num) (by norm_num)
  · simp only [if_neg hw]
    by_cases hw2 : wordCount input < 30
    · simp only [if_pos hw2]
      exact roundTo2_uniform_bounds _ _ _ h0 h1 (by norm_num) (by norm_num) (by norm_num)
    · simp only [if_neg hw2]
      exact roundTo2_uniform_bounds _ _ _ h0 h1 (by norm_num) (by norm_num) (by norm_num)

/-- C5: the fallback responder is total and structurally valid — on every
input string (and any jitter fraction actually drawn by `random.uniform`,
i.e. in `[0, 1]`) `_enhanced_mock_parse` produces a payload that passes
`_validate_intent_structure`, with `parsing_confidence` in `[0, 1]` — and
`parse_intent` absorbs every dispatcher error, `AllSlotsExhausted`
included, by returning exactly that fallback payload instead of raising. -/
theorem C5_total_fallback (transport : String → RemoteOutcome) (jitter : Nat → ℚ)
    (extract : Nat → Except PostError IntentResult) (env : MockEnv) (modelName : String)
    (s : GState) (input : String)
    (h0 : 0 ≤ env.confFrac) (h1 : env.confFrac ≤ 1) :
    validateIntentStructure (enhancedMockParse env input) = true ∧
    (∀ e s1 tr, parseWithGemini transport jitter extract env modelName s input =
        (Except.error e, s1, tr) →
      parse_intent transport jitter extract env modelName s input =
        ({ enhancedMockParse env input with active_key := "MOCK_FALLBACK" }, s1, tr)) := by
  constructor
  · have hw : (enhancedMockParse env input).workload_type =
        detectWorkload (String.toLower input) := rfl
    have hc : (enhancedMockParse env input).parsing_confidence = mockConfidence env input := rfl
    unfold validateIntentStructure
    rw [hw, hc]
    simp only [Bool.and_eq_true, decide_eq_true_eq]
    exact ⟨⟨detectWorkload_valid _, (mockConfidence_bounds env input h0 h1).1⟩,
      (mockConfidence_bounds env input h0 h1).2⟩
  · intro e s1 tr h
    unfold parse_intent
    rw [h]

/-- C5 witness: a concrete input through the tripped-breaker error path. -/
theorem C5_total_fallback_witness :
    validateIntentStructure (enhancedMockParse mockEnvHalf "I need an api for 50k users") = true ∧
    parse_intent quotaTransport zeroJitter failingExtract mockEnvHalf "gemini-2.5-flash-lite"
        trippedState "I need an api for 50k users" =
      ({ enhancedMockParse mockEnvHalf "I need an api for 50k users" with
          active_key := "MOCK_FALLBACK" }, trippedState, emptyTrace) :=
  ⟨(C5_total_fallback quotaTransport zeroJitter failingExtract mockEnvHalf
      "gemini-2.5-flash-lite" trippedState "I need an api for 50k users"
      (by norm_num [mockEnvHalf]) (by norm_num [mockEnvHalf])).1,
   (C5_total_fallback quotaTransport zeroJitter failingExtract mockEnvHalf
      "gemini-2.5-flash-lite" trippedState "I need an api for 50k users"
      (by norm_num [mockEnvHalf]) (by norm_num [mockEnvHalf])).2
     (GeminiError.dispatch DispatchError.exhaustedGlobal) trippedState emptyTrace rfl⟩

end InfronAI

